import Mathlib

/-!  Shallow embedding of the budget tracker's core logic (`main.py`):
amount parsing and cleaning, budget-period rollover and next-reset
computation, the expense ledger state, history filtering/aggregation, and
the persistence round trip for expense records.  Monetary values are exact
decimals, embedded in `Rat`; timestamps are naive `datetime` field tuples;
operations that can raise in Python return `Option` (or carry an explicit
exception slot), with `none` standing for a raised exception. -/

namespace BudgetTracker

/-- Character for a decimal digit value below ten (ASCII `'0'` plus the value). -/
def digitChar (m : Nat) : Char := Char.ofNat (48 + m)

/-- Fixed-width zero-padded decimal rendering, most significant digit first;
models the zero-padded numeric fields of Python `datetime.isoformat` and
`strftime`. -/
def padDigits : Nat → Nat → List Char
  | 0, _ => []
  | k + 1, n => digitChar (n / 10 ^ k) :: padDigits k (n % 10 ^ k)

/-- Read exactly `k` digit characters, accumulating their value onto `acc`;
returns the value and the remaining characters, or `none` on a non-digit. -/
def readDigitsAux : Nat → Nat → List Char → Option (Nat × List Char)
  | 0, acc, l => some (acc, l)
  | _ + 1, _, [] => none
  | k + 1, acc, c :: l =>
      if c.isDigit then readDigitsAux k (10 * acc + (c.toNat - 48)) l else none

/-- Consume one expected character from the front of the input. -/
def expectChar (c : Char) : List Char → Option (List Char)
  | [] => none
  | d :: l => if d = c then some l else none

/-- A Python naive `datetime.datetime` value, as its field tuple. -/
structure DateTime where
  year : Nat
  month : Nat
  day : Nat
  hour : Nat
  minute : Nat
  second : Nat
  microsecond : Nat
  deriving DecidableEq

/-- Python `datetime._is_leap`: Gregorian leap-year rule. -/
def isLeap (y : Nat) : Bool := y % 4 == 0 && (!(y % 100 == 0) || y % 400 == 0)

/-- Python `datetime._days_in_month` (for months 1..12). -/
def daysInMonth (y m : Nat) : Nat :=
  if m = 2 then (if isLeap y then 29 else 28)
  else if m = 4 ∨ m = 6 ∨ m = 9 ∨ m = 11 then 30
  else 31

/-- Range constraints enforced by the `datetime.datetime` constructor; a
`replace` or `fromisoformat` call raises `ValueError` exactly when they are
violated. -/
def DateTime.Valid (t : DateTime) : Prop :=
  1 ≤ t.year ∧ t.year ≤ 9999 ∧ 1 ≤ t.month ∧ t.month ≤ 12 ∧
  1 ≤ t.day ∧ t.day ≤ daysInMonth t.year t.month ∧
  t.hour ≤ 23 ∧ t.minute ≤ 59 ∧ t.second ≤ 59 ∧ t.microsecond ≤ 999999

instance (t : DateTime) : Decidable t.Valid := by
  unfold DateTime.Valid
  exact inferInstance

/-- Character sequence produced by Python `datetime.isoformat()`:
`YYYY-MM-DDTHH:MM:SS` with a `.ffffff` suffix exactly when the microsecond
field is nonzero. -/
def isoChars (t : DateTime) : List Char :=
  padDigits 4 t.year ++ ('-' :: (padDigits 2 t.month ++ ('-' :: (padDigits 2 t.day ++
    ('T' :: (padDigits 2 t.hour ++ (':' :: (padDigits 2 t.minute ++ (':' :: (padDigits 2 t.second ++
    (if t.microsecond = 0 then [] else '.' :: padDigits 6 t.microsecond)))))))))))

/-- Python `datetime.isoformat()` as a string. -/
def isoformat (t : DateTime) : String := ⟨isoChars t⟩

/-- Optional fractional-second part of an ISO timestamp: empty input means
zero microseconds, otherwise a dot followed by exactly six digits. -/
def readMicro : List Char → Option Nat
  | [] => some 0
  | c :: r =>
      if c = '.' then
        match readDigitsAux 6 0 r with
        | some (us, []) => some us
        | _ => none
      else none

/-- Final step of `fromisoformat`: the `datetime` constructor, which
validates the field ranges and raises `ValueError` (here `none`) otherwise. -/
def mkValidated (y mo d h mi s us : Nat) : Option DateTime :=
  let t : DateTime := ⟨y, mo, d, h, mi, s, us⟩
  if t.Valid then some t else none

/-- Python `datetime.fromisoformat` applied to the strings that `isoformat`
produces (fixed-width fields with `-`, `T`, `:` separators and an optional
`.ffffff` tail); any other shape is rejected with `none`. -/
def fromisoChars (l : List Char) : Option DateTime :=
  (readDigitsAux 4 0 l).bind fun p1 =>
  (expectChar '-' p1.2).bind fun l2 =>
  (readDigitsAux 2 0 l2).bind fun p2 =>
  (expectChar '-' p2.2).bind fun l4 =>
  (readDigitsAux 2 0 l4).bind fun p3 =>
  (expectChar 'T' p3.2).bind fun l6 =>
  (readDigitsAux 2 0 l6).bind fun p4 =>
  (expectChar ':' p4.2).bind fun l8 =>
  (readDigitsAux 2 0 l8).bind fun p5 =>
  (expectChar ':' p5.2).bind fun l10 =>
  (readDigitsAux 2 0 l10).bind fun p6 =>
  (readMicro p6.2).bind fun us =>
  mkValidated p1.1 p2.1 p3.1 p4.1 p5.1 p6.1 us

/-- Python `datetime.fromisoformat` on strings. -/
def fromisoformat (s : String) : Option DateTime := fromisoChars s.toList

/-- Python `dt.strftime("%Y-%m-%d")`. -/
def strftimeYmd (t : DateTime) : String :=
  ⟨padDigits 4 t.year ++ '-' :: padDigits 2 t.month ++ '-' :: padDigits 2 t.day⟩

/-- Python `datetime._days_before_year`: days from 0001-01-01 to Jan 1 of `y`. -/
def daysBeforeYear (y : Nat) : Nat :=
  365 * (y - 1) + (y - 1) / 4 - (y - 1) / 100 + (y - 1) / 400

/-- Python `datetime._days_before_month`: days in year `y` before month `m`. -/
def daysBeforeMonth (y m : Nat) : Nat :=
  ((List.range (m - 1)).map fun i => daysInMonth y (i + 1)).sum

/-- Python `datetime.toordinal`: proleptic Gregorian ordinal of the date. -/
def toOrdinal (t : DateTime) : Nat :=
  daysBeforeYear t.year + daysBeforeMonth t.year t.month + t.day

/-- Position of a `datetime` on the absolute time line, in microseconds;
subtracting two of these gives the Python `timedelta` between them. -/
def absMicro (t : DateTime) : Int :=
  ((toOrdinal t * 86400 + t.hour * 3600 + t.minute * 60 + t.second : Nat) : Int) * 1000000 +
    (t.microsecond : Int)

/-- Python `a - b` on datetimes, as a `timedelta` measured in microseconds. -/
def dtDiffMicro (a b : DateTime) : Int := absMicro a - absMicro b

/-- Python `timedelta.days`: floor division of the duration by one day. -/
def timedeltaDays (micro : Int) : Int := Int.fdiv micro 86400000000

/-- A Python `datetime.date` value, as produced by `dt.date()`. -/
structure PyDate where
  year : Nat
  month : Nat
  day : Nat
  deriving DecidableEq

/-- Python `dt.date()`. -/
def dateOf (t : DateTime) : PyDate := ⟨t.year, t.month, t.day⟩

/-- Python `<` on `date` values: lexicographic on (year, month, day). -/
def pyDateLt (a b : PyDate) : Bool :=
  if a.year < b.year then true else if b.year < a.year then false
  else if a.month < b.month then true else if b.month < a.month then false
  else decide (a.day < b.day)

/-- Python `<` on `datetime` values: lexicographic on the field tuple. -/
def pyDtLt (a b : DateTime) : Bool :=
  if a.year < b.year then true else if b.year < a.year then false
  else if a.month < b.month then true else if b.month < a.month then false
  else if a.day < b.day then true else if b.day < a.day then false
  else if a.hour < b.hour then true else if b.hour < a.hour then false
  else if a.minute < b.minute then true else if b.minute < a.minute then false
  else if a.second < b.second then true else if b.second < a.second then false
  else decide (a.microsecond < b.microsecond)

/-- Calendar successor of a date, keeping the time of day. -/
def nextDay (t : DateTime) : DateTime :=
  if t.day < daysInMonth t.year t.month then { t with day := t.day + 1 }
  else if t.month < 12 then { t with month := t.month + 1, day := 1 }
  else { t with year := t.year + 1, month := 1, day := 1 }

/-- Python `dt + timedelta(days=n)`: advance the calendar date `n` times,
keeping the time of day (the `datetime` upper range bound is not modelled). -/
def addDays : Nat → DateTime → DateTime
  | 0, t => t
  | n + 1, t => addDays n (nextDay t)

/-- Python `dt.replace(year=y, month=m)`: rebuilds the datetime through the
validating constructor, so it raises `ValueError` (`none`) when the day of
month is out of range for the new year/month. -/
def pyReplaceYM (t : DateTime) (y m : Nat) : Option DateTime :=
  let t2 := { t with year := y, month := m }
  if t2.Valid then some t2 else none

/-- Embeds `get_next_reset_date` (main.py lines 370-388).  Returns
`some "N/A"` with no start date, otherwise the `strftime("%Y-%m-%d")`
rendering of the computed next reset; `none` stands for an uncaught
`ValueError` escaping from `replace`. -/
def get_next_reset_date (budget_type : Option String) (budget_start_date : Option DateTime) :
    Option String :=
  match budget_start_date with
  | none => some "N/A"
  | some start_date =>
    let nextO : Option DateTime :=
      if budget_type = some "Daily" then some (addDays 1 start_date)
      else if budget_type = some "Weekly" then some (addDays 7 start_date)
      else if budget_type = some "Monthly" then
        let nm := start_date.month + 1
        let ny := start_date.year + (if nm > 12 then 1 else 0)
        let nm2 := (nm - 1) % 12 + 1
        pyReplaceYM start_date ny nm2
      else pyReplaceYM start_date (start_date.year + 1) start_date.month
    nextO.map strftimeYmd

/-- Embeds `re.sub(r'[^\d.]', '', s)`: keep only (ASCII) digits and dots. -/
def cleanAmount (s : String) : String := ⟨s.toList.filter fun c => c.isDigit || c == '.'⟩

/-- Value of a digit string, most significant digit first. -/
def digitsVal (l : List Char) : Nat := l.foldl (fun a c => 10 * a + (c.toNat - 48)) 0

/-- Embeds the `Decimal(...)` string constructor on the strings this program
passes it, which consist of digits and dots only (every call site cleans its
input first).  A string with at most one dot and at least one digit denotes
the exact decimal value; anything else raises `InvalidOperation`, embedded
as `none`. -/
def pyDecimal (s : String) : Option Rat :=
  let l := s.toList
  if (l.all fun c => c.isDigit || c == '.') ∧ l.count '.' ≤ 1 ∧ (l.any fun c => c.isDigit) then
    let ip := l.takeWhile fun c => c ≠ '.'
    let fp := (l.dropWhile fun c => c ≠ '.').drop 1
    some ((digitsVal ip : Rat) + (digitsVal fp : Rat) / (10 : Rat) ^ fp.length)
  else none

/-- Embeds `validate_decimal_input` (main.py lines 446-453): empty text is
rejected, otherwise the text is cleaned and handed to `Decimal`, with parse
failures mapped to `None`. -/
def validate_decimal_input (value : String) : Option Rat :=
  if value = "" then none else pyDecimal (cleanAmount value)

/-- An in-memory expense record, as built by `add_expense`. -/
structure Expense where
  date : DateTime
  amount : Rat
  description : String
  category : String
  currency : String
  budget_type : Option String
  budget_period : String
  deriving DecidableEq

/-- An expense record as placed in the persisted settings: identical fields,
with the timestamp replaced by its ISO-8601 string (main.py lines 29-32). -/
structure StoredExpense where
  date : String
  amount : Rat
  description : String
  category : String
  currency : String
  budget_type : Option String
  budget_period : String
  deriving DecidableEq

/-- Serialization step of `save_settings`: `{**expense, 'date': expense['date'].isoformat()}`. -/
def serializeExpense (e : Expense) : StoredExpense :=
  ⟨isoformat e.date, e.amount, e.description, e.category, e.currency, e.budget_type,
    e.budget_period⟩

/-- Deserialization step of the session-state initialization (main.py lines
69-72): `{**expense, 'date': datetime.fromisoformat(expense['date'])}`. -/
def deserializeExpense (r : StoredExpense) : Option Expense :=
  (fromisoformat r.date).map fun d =>
    ⟨d, r.amount, r.description, r.category, r.currency, r.budget_type, r.budget_period⟩

/-- The mutable session state owned by the page (main.py lines 58-73). -/
structure SessionState where
  currency : String
  budget_type : Option String
  budget_amount : Option Rat
  budget_start_date : Option DateTime
  expenses : List Expense
  expense_history : List Expense
  deriving DecidableEq

/-- The `reset_needed` condition of `check_budget_reset` (main.py lines
158-167), per budget type. -/
def resetNeeded (budget_type : Option String) (now start_date : DateTime) : Bool :=
  if budget_type = some "Daily" then pyDateLt (dateOf start_date) (dateOf now)
  else if budget_type = some "Weekly" then decide (timedeltaDays (dtDiffMicro now start_date) ≥ 7)
  else if budget_type = some "Monthly" then
    decide (now.year > start_date.year ∨
      (now.year = start_date.year ∧ now.month > start_date.month))
  else if budget_type = some "Yearly" then decide (now.year > start_date.year)
  else false

/-- Embeds `check_budget_reset` (main.py lines 150-171): with no start date
it returns unchanged; otherwise, when a reset is due, it moves the start
date to `now` and empties the current-period list. -/
def check_budget_reset (s : SessionState) (now : DateTime) : SessionState :=
  match s.budget_start_date with
  | none => s
  | some start_date =>
    if resetNeeded s.budget_type now start_date then
      { s with budget_start_date := some now, expenses := [] }
    else s

/-- Embeds the explicit `Reset Budget` action (main.py lines 363-368). -/
def resetBudgetAction (s : SessionState) : SessionState :=
  { s with
    budget_type := none
    budget_amount := none
    budget_start_date := none
    expenses := [] }

/-- Embeds `add_expense` (main.py lines 455-470).  The returned `Option
String` is the exception escaping the call, if any: the `budget_period`
f-string is built before the budget guard, so with no start date
`None.strftime` raises `AttributeError`, and a `ValueError` escaping
`get_next_reset_date` also propagates.  Only when the record is built and
`budget_type` is set are both lists appended to. -/
def add_expense (s : SessionState) (now : DateTime) (amount : Rat)
    (description category : String) : SessionState × Option String :=
  match s.budget_start_date with
  | none => (s, some "AttributeError")
  | some start_date =>
    match get_next_reset_date s.budget_type s.budget_start_date with
    | none => (s, some "ValueError")
    | some next_str =>
      let expense : Expense :=
        { date := now, amount := amount, description := description, category := category,
          currency := s.currency, budget_type := s.budget_type,
          budget_period := strftimeYmd start_date ++ " to " ++ next_str }
      if s.budget_type.isSome then
        ({ s with expenses := s.expenses ++ [expense],
                  expense_history := s.expense_history ++ [expense] }, none)
      else (s, none)

/-- Embeds the `Set Budget` handler (main.py lines 295-306): clean and parse
the text, reject non-positive amounts, otherwise install the budget with
start date `now`.  The second component is the displayed error, if any. -/
def set_budget_action (s : SessionState) (now : DateTime) (budget_type budget_amount : String) :
    SessionState × Option String :=
  match pyDecimal (cleanAmount budget_amount) with
  | none => (s, some "Please enter a valid budget amount.")
  | some amount =>
    if amount ≤ 0 then (s, some "Please enter a positive budget amount.")
    else
      ({ s with
          budget_type := some budget_type
          budget_amount := some amount
          budget_start_date := some now }, none)

/-- Embeds the `Add Expense` handler (main.py lines 340-349): clean and
parse, reject non-positive amounts, otherwise call `add_expense`; the
surrounding `except (InvalidOperation, ValueError)` also catches a
`ValueError` escaping `add_expense`, reporting the generic parse error,
while other exceptions propagate in the error slot. -/
def add_expense_action (s : SessionState) (now : DateTime)
    (category amount_raw description : String) : SessionState × Option String :=
  match pyDecimal (cleanAmount amount_raw) with
  | none => (s, some "Please enter a valid amount.")
  | some expense_amount =>
    if expense_amount ≤ 0 then (s, some "Please enter a positive amount.")
    else
      let r := add_expense s now expense_amount description category
      if r.2 = some "ValueError" then (r.1, some "Please enter a valid amount.")
      else r

/-- Embeds the calculator's validation of price and quantity (main.py lines
409-417): both fields are parsed with `validate_decimal_input`; when both
parse, strictly negative values draw the error, otherwise the product is
offered.  First component: displayed error; second: computed total. -/
def calc_food_action (price_raw qty_raw : String) : Option String × Option Rat :=
  match validate_decimal_input price_raw, validate_decimal_input qty_raw with
  | some price, some qty =>
      if price < 0 ∨ qty < 0 then (some "Please enter positive values only.", none)
      else (none, some (price * qty))
  | _, _ => (none, none)

/-- Embeds `sum(expense['amount'] for expense in ...)` (main.py line 309). -/
def current_total (expenses : List Expense) : Rat := (expenses.map Expense.amount).sum

/-- Embeds `remaining_budget = budget_amount - total_expenses` (main.py line 310). -/
def remaining_budget (budget_amount : Rat) (expenses : List Expense) : Rat :=
  budget_amount - current_total expenses

/-- Embeds the history filter (main.py lines 493-503): category pass-through
on "All", then the inclusive whole-day window per selected range. -/
def filtered_expenses (history : List Expense) (selected_category date_range : String)
    (now : DateTime) : List Expense :=
  let l1 := if selected_category ≠ "All" then
      history.filter fun e => e.category = selected_category
    else history
  if date_range = "Last 7 days" then
    l1.filter fun e => decide (timedeltaDays (dtDiffMicro now e.date) ≤ 7)
  else if date_range = "Last 30 days" then
    l1.filter fun e => decide (timedeltaDays (dtDiffMicro now e.date) ≤ 30)
  else if date_range = "Last 3 months" then
    l1.filter fun e => decide (timedeltaDays (dtDiffMicro now e.date) ≤ 90)
  else l1

/-- Python `min(e['date'] for e in filtered)` written as a left fold keeping
the first minimum. -/
def minExpenseDate (e : Expense) (rest : List Expense) : DateTime :=
  rest.foldl (fun m x => if pyDtLt x.date m then x.date else m) e.date

/-- Embeds the summary statistics of the history page (main.py lines
506-508 and 533-534): `none` is the "No expenses found" branch, otherwise
the pair of `total_spent` and `avg_per_day`. -/
def history_stats (filtered : List Expense) (now : DateTime) : Option (Rat × Rat) :=
  match filtered with
  | [] => none
  | e :: rest =>
    let total_spent := current_total (e :: rest)
    let avg_per_day := total_spent /
      ((max 1 (timedeltaDays (dtDiffMicro now (minExpenseDate e rest))) : Int) : Rat)
    some (total_spent, avg_per_day)

/-- Specification-side total: the sum of the amounts of the filtered set. -/
def totalSpentSpec (l : List Expense) : Rat := (l.map Expense.amount).sum

/-- Specification-side whole days between `now` and an earlier timestamp. -/
def daysBetween (now d : DateTime) : Int := timedeltaDays (dtDiffMicro now d)

/-- Specification-side Daily rollover condition: the current calendar date
is strictly after the start date. -/
def dailyDueSpec (now start : DateTime) : Prop :=
  start.year < now.year ∨ (start.year = now.year ∧
    (start.month < now.month ∨ (start.month = now.month ∧ start.day < now.day)))

/-- Specification-side Weekly rollover condition: at least seven days of
elapsed duration have passed since the start. -/
def weeklyDueSpec (now start : DateTime) : Prop :=
  dtDiffMicro now start ≥ 7 * 86400000000

/-- Specification-side Monthly rollover condition: the (year, month) pair of
`now` is strictly after that of the start, regardless of day of month. -/
def monthlyDueSpec (now start : DateTime) : Prop :=
  now.year > start.year ∨ (now.year = start.year ∧ now.month > start.month)

/-- Specification-side Yearly rollover condition. -/
def yearlyDueSpec (now start : DateTime) : Prop := now.year > start.year

/-- Fixture: a timestamp used by concrete witnesses. -/
def dt0 : DateTime := ⟨2024, 1, 15, 12, 0, 0, 0⟩

/-- Fixture: the freshly initialized session state (no budget set). -/
def initState : SessionState := ⟨"USD", none, none, none, [], []⟩

/-- Fixture: an expense of 10 logged at `dt0`. -/
def e10 : Expense := ⟨dt0, 10, "groceries", "Food", "USD", some "Monthly", ""⟩

/-- Fixture: an expense of 7/2 logged two days after `dt0`. -/
def e35 : Expense := ⟨⟨2024, 1, 17, 9, 30, 0, 0⟩, 7 / 2, "bus", "Transportation", "USD",
  some "Monthly", ""⟩

/-- Fixture: an observation time nine days after `dt0`. -/
def dtLater : DateTime := ⟨2024, 1, 24, 12, 0, 0, 0⟩

/-- Fixture: a session state with an active Weekly budget started at `dt0`. -/
def weeklyState : SessionState :=
  ⟨"USD", some "Weekly", some 100, some dt0, [e10], [e10, e35]⟩

/-- Digit characters produced by `digitChar` are digits. -/
theorem digitCharFin : ∀ m : Fin 10,
    (digitChar m.val).isDigit = true ∧ (digitChar m.val).toNat - 48 = m.val := by decide

/-- Rendering a digit value below ten yields a digit character. -/
theorem digitChar_isDigit {m : Nat} (h : m < 10) : (digitChar m).isDigit = true :=
  (digitCharFin ⟨m, h⟩).1

/-- Reading back the numeric value of a rendered digit. -/
theorem digitChar_toNat {m : Nat} (h : m < 10) : (digitChar m).toNat - 48 = m :=
  (digitCharFin ⟨m, h⟩).2

/-- Reading `k` digit characters off a `k`-wide zero-padded rendering
recovers the rendered value and leaves the rest of the input untouched. -/
theorem readDigitsAux_pad (k : Nat) : ∀ (n acc : Nat) (rest : List Char), n < 10 ^ k →
    readDigitsAux k acc (padDigits k n ++ rest) = some (acc * 10 ^ k + n, rest) := by
  induction k with
  | zero =>
    intro n acc rest hn
    have hn0 : n = 0 := Nat.lt_one_iff.mp (by simpa using hn)
    subst hn0
    simp [padDigits, readDigitsAux]
  | succ k ih =>
    intro n acc rest hn
    have h10 : 0 < 10 ^ k := pow_pos (by norm_num) k
    have hq : n / 10 ^ k < 10 := Nat.div_lt_of_lt_mul (by rwa [pow_succ] at hn)
    have hr : n % 10 ^ k < 10 ^ k := Nat.mod_lt _ h10
    simp only [padDigits, List.cons_append, List.append_eq, readDigitsAux,
      digitChar_isDigit hq, if_true, digitChar_toNat hq]
    rw [ih (n % 10 ^ k) _ rest hr]
    have hsplit : 10 ^ k * (n / 10 ^ k) + n % 10 ^ k = n := Nat.div_add_mod n (10 ^ k)
    have hval : (10 * acc + n / 10 ^ k) * 10 ^ k + n % 10 ^ k = acc * 10 ^ (k + 1) + n := by
      rw [pow_succ]
      calc (10 * acc + n / 10 ^ k) * 10 ^ k + n % 10 ^ k
          = acc * (10 ^ k * 10) + (10 ^ k * (n / 10 ^ k) + n % 10 ^ k) := by ring
        _ = acc * (10 ^ k * 10) + n := by rw [hsplit]
    rw [hval]

/-- Variant of `readDigitsAux_pad` starting from a zero accumulator. -/
theorem readDigitsAux_pad0 (k n : Nat) (rest : List Char) (h : n < 10 ^ k) :
    readDigitsAux k 0 (padDigits k n ++ rest) = some (n, rest) := by
  simpa using readDigitsAux_pad k n 0 rest h

/-- Consuming the expected character succeeds. -/
theorem expectChar_cons (c : Char) (l : List Char) : expectChar c (c :: l) = some l := by
  simp [expectChar]

/-- Parsing an `isoformat` character sequence recovers the datetime. -/
theorem fromisoChars_isoChars (t : DateTime) (h : t.Valid) :
    fromisoChars (isoChars t) = some t := by
  obtain ⟨y, mo, d, hh, mi, s, us⟩ := t
  unfold DateTime.Valid at h
  dsimp only at h
  obtain ⟨h1, h2, h3, h4, h5, h6, h7, h8, h9, h10⟩ := h
  have hdm : daysInMonth y mo ≤ 31 := by
    unfold daysInMonth
    split_ifs <;> norm_num
  have hy : y < 10 ^ 4 := by norm_num; omega
  have hmo : mo < 10 ^ 2 := by norm_num; omega
  have hd : d < 10 ^ 2 := by norm_num; omega
  have hhh : hh < 10 ^ 2 := by norm_num; omega
  have hmi : mi < 10 ^ 2 := by norm_num; omega
  have hs : s < 10 ^ 2 := by norm_num; omega
  have hus6 : us < 10 ^ 6 := by norm_num; omega
  by_cases hus : us = 0
  · simp only [isoChars, fromisoChars, if_pos hus]
    rw [readDigitsAux_pad0 4 y _ hy]
    simp only [Option.some_bind]
    rw [expectChar_cons]
    simp only [Option.some_bind]
    rw [readDigitsAux_pad0 2 mo _ hmo]
    simp only [Option.some_bind]
    rw [expectChar_cons]
    simp only [Option.some_bind]
    rw [readDigitsAux_pad0 2 d _ hd]
    simp only [Option.some_bind]
    rw [expectChar_cons]
    simp only [Option.some_bind]
    rw [readDigitsAux_pad0 2 hh _ hhh]
    simp only [Option.some_bind]
    rw [expectChar_cons]
    simp only [Option.some_bind]
    rw [readDigitsAux_pad0 2 mi _ hmi]
    simp only [Option.some_bind]
    rw [expectChar_cons]
    simp only [Option.some_bind]
    rw [readDigitsAux_pad0 2 s [] hs]
    simp only [Option.some_bind]
    dsimp only [readMicro]
    simp only [Option.some_bind, mkValidated]
    rw [if_pos (show DateTime.Valid ⟨y, mo, d, hh, mi, s, 0⟩ from
      ⟨h1, h2, h3, h4, h5, h6, h7, h8, h9, Nat.zero_le _⟩)]
    rw [hus]
  · simp only [isoChars, fromisoChars, if_neg hus]
    rw [readDigitsAux_pad0 4 y _ hy]
    simp only [Option.some_bind]
    rw [expectChar_cons]
    simp only [Option.some_bind]
    rw [readDigitsAux_pad0 2 mo _ hmo]
    simp only [Option.some_bind]
    rw [expectChar_cons]
    simp only [Option.some_bind]
    rw [readDigitsAux_pad0 2 d _ hd]
    simp only [Option.some_bind]
    rw [expectChar_cons]
    simp only [Option.some_bind]
    rw [readDigitsAux_pad0 2 hh _ hhh]
    simp only [Option.some_bind]
    rw [expectChar_cons]
    simp only [Option.some_bind]
    rw [readDigitsAux_pad0 2 mi _ hmi]
    simp only [Option.some_bind]
    rw [expectChar_cons]
    simp only [Option.some_bind]
    rw [readDigitsAux_pad0 2 s _ hs]
    simp only [Option.some_bind]
    dsimp only [readMicro]
    rw [if_pos rfl]
    rw [show padDigits 6 us = padDigits 6 us ++ [] from (List.append_nil _).symm,
      readDigitsAux_pad0 6 us [] hus6]
    simp only [Option.some_bind, mkValidated]
    rw [if_pos (show DateTime.Valid ⟨y, mo, d, hh, mi, s, us⟩ from
      ⟨h1, h2, h3, h4, h5, h6, h7, h8, h9, h10⟩)]

/-- Parsing the ISO-8601 rendering of a valid datetime recovers it exactly. -/
theorem fromisoformat_isoformat (t : DateTime) (h : t.Valid) :
    fromisoformat (isoformat t) = some t :=
  fromisoChars_isoChars t h

/-- C3: serializing an Expense to the persistence record and deserializing
it back succeeds and yields identical fields; the timestamp is written as an
ISO-8601 string and parses back to the same instant. -/
theorem c3_expense_roundtrip (e : Expense) (h : e.date.Valid) :
    deserializeExpense (serializeExpense e) = some e := by
  simp only [serializeExpense, deserializeExpense]
  rw [show fromisoformat (isoformat e.date) = some e.date from fromisoformat_isoformat e.date h]
  rfl

/-- C3 witness: a concrete expense with a microsecond-level timestamp
round-trips through the persistence record unchanged. -/
theorem c3_expense_roundtrip_witness :
    DateTime.Valid ⟨2024, 1, 15, 12, 30, 45, 123456⟩ ∧
    deserializeExpense (serializeExpense ⟨⟨2024, 1, 15, 12, 30, 45, 123456⟩, 45, "lunch",
        "Food", "USD", some "Monthly", "2024-01-15 to 2024-02-15"⟩) =
      some ⟨⟨2024, 1, 15, 12, 30, 45, 123456⟩, 45, "lunch", "Food", "USD", some "Monthly",
        "2024-01-15 to 2024-02-15"⟩ :=
  ⟨by decide, c3_expense_roundtrip _ (by decide)⟩

/-- Filtering a list twice with the same predicate equals filtering once. -/
theorem filter_self_idem (p : Char → Bool) (l : List Char) :
    (l.filter p).filter p = l.filter p := by
  induction l with
  | nil => rfl
  | cons c l ih =>
    cases hc : p c <;> simp [List.filter_cons, hc, ih]

/-- The cleaning pass keeps only digits and dots, so a second pass is a no-op. -/
theorem cleanAmount_idem (v : String) : cleanAmount (cleanAmount v) = cleanAmount v :=
  congrArg (fun l => (⟨l⟩ : String)) (filter_self_idem _ v.toList)

/-- Evaluation rule for `pyDecimal` on an accepted string, with the digit
arithmetic discharged on naturals and the final rational supplied. -/
theorem pyDecimal_eval (s : String) (a b k : Nat) (q : Rat)
    (hcond : (s.toList.all fun c => c.isDigit || c == '.') ∧ s.toList.count '.' ≤ 1 ∧
      (s.toList.any fun c => c.isDigit))
    (hip : digitsVal (s.toList.takeWhile fun c => c ≠ '.') = a)
    (hfp : digitsVal ((s.toList.dropWhile fun c => c ≠ '.').drop 1) = b)
    (hlen : ((s.toList.dropWhile fun c => c ≠ '.').drop 1).length = k)
    (hq : (a : Rat) + (b : Rat) / 10 ^ k = q) :
    pyDecimal s = some q := by
  simp only [pyDecimal]
  rw [if_pos hcond, hip, hfp, hlen, hq]

/-- Evaluation rule for `validate_decimal_input` on a successfully parsed
string, given its cleaned form. -/
theorem validate_decimal_eval (v w : String) (a b k : Nat) (q : Rat)
    (hv : ¬ v = "") (hw : cleanAmount v = w)
    (hcond : (w.toList.all fun c => c.isDigit || c == '.') ∧ w.toList.count '.' ≤ 1 ∧
      (w.toList.any fun c => c.isDigit))
    (hip : digitsVal (w.toList.takeWhile fun c => c ≠ '.') = a)
    (hfp : digitsVal ((w.toList.dropWhile fun c => c ≠ '.').drop 1) = b)
    (hlen : ((w.toList.dropWhile fun c => c ≠ '.').drop 1).length = k)
    (hq : (a : Rat) + (b : Rat) / 10 ^ k = q) :
    validate_decimal_input v = some q := by
  simp only [validate_decimal_input]
  rw [if_neg hv, hw]
  exact pyDecimal_eval w a b k q hcond hip hfp hlen hq

/-- The text "0" parses to the value 0. -/
theorem validate_zero : validate_decimal_input "0" = some 0 :=
  validate_decimal_eval "0" "0" 0 0 0 0 (by decide) (by decide) (by decide) (by decide)
    (by decide) (by decide) (by norm_num)

/-- The text "1" parses to the value 1. -/
theorem validate_one : validate_decimal_input "1" = some 1 :=
  validate_decimal_eval "1" "1" 1 0 0 1 (by decide) (by decide) (by decide) (by decide)
    (by decide) (by decide) (by norm_num)

/-- The text "2" parses to the value 2. -/
theorem validate_two : validate_decimal_input "2" = some 2 :=
  validate_decimal_eval "2" "2" 2 0 0 2 (by decide) (by decide) (by decide) (by decide)
    (by decide) (by decide) (by norm_num)

/-- The text "3" parses to the value 3. -/
theorem validate_three : validate_decimal_input "3" = some 3 :=
  validate_decimal_eval "3" "3" 3 0 0 3 (by decide) (by decide) (by decide) (by decide)
    (by decide) (by decide) (by norm_num)

/-- The text "-5" parses to the value 5: the minus sign is stripped. -/
theorem validate_neg5 : validate_decimal_input "-5" = some 5 :=
  validate_decimal_eval "-5" "5" 5 0 0 5 (by decide) (by decide) (by decide) (by decide)
    (by decide) (by decide) (by norm_num)

/-- Cleaning then parsing the text "0" yields the value 0. -/
theorem pyDecimal_clean_zero : pyDecimal (cleanAmount "0") = some 0 := by
  rw [show cleanAmount "0" = "0" from by decide]
  exact pyDecimal_eval "0" 0 0 0 0 (by decide) (by decide) (by decide) (by decide) (by norm_num)

/-- C9: for every input text, parsing the raw text yields the same result as
parsing the text with every non-digit, non-dot character stripped, and the
cleaning step is idempotent. -/
theorem c9_parse_equals_parse_cleaned :
    (∀ v : String, cleanAmount (cleanAmount v) = cleanAmount v) ∧
    (∀ v : String, validate_decimal_input v = validate_decimal_input (cleanAmount v)) := by
  refine ⟨cleanAmount_idem, ?_⟩
  intro v
  by_cases hv : v = ""
  · subst hv
    rfl
  · simp only [validate_decimal_input, if_neg hv]
    by_cases hcv : cleanAmount v = ""
    · rw [hcv]
      rw [if_pos rfl]
      decide
    · rw [if_neg hcv, cleanAmount_idem]

/-- C10: whenever the amount parser succeeds its result is non-negative,
because the minus sign is stripped along with every other non-digit,
non-dot character. -/
theorem c10_parse_nonneg :
    ∀ (v : String) (r : Rat), validate_decimal_input v = some r → 0 ≤ r := by
  intro v r h
  unfold validate_decimal_input at h
  by_cases hv : v = ""
  · rw [if_pos hv] at h
    exact absurd h (by simp)
  · rw [if_neg hv] at h
    simp only [pyDecimal] at h
    split at h
    · rw [Option.some_inj] at h
      rw [← h]
      positivity
    · exact absurd h (by simp)

/-- C10 witness: the text "-5" parses to 5, a non-negative value. -/
theorem c10_parse_nonneg_witness :
    validate_decimal_input "-5" = some 5 ∧ (0 : Rat) ≤ 5 :=
  ⟨validate_neg5, c10_parse_nonneg "-5" 5 validate_neg5⟩

/-- The only exceptions `add_expense` can propagate are `AttributeError`
and `ValueError`. -/
theorem add_expense_exc (s : SessionState) (now : DateTime) (a : Rat) (dsc cat : String) :
    (add_expense s now a dsc cat).2 = none ∨
    (add_expense s now a dsc cat).2 = some "AttributeError" ∨
    (add_expense s now a dsc cat).2 = some "ValueError" := by
  rcases hsd : s.budget_start_date with _ | st
  · simp [add_expense, hsd]
  · rcases hnr : get_next_reset_date s.budget_type (some st) with _ | nx
    · simp [add_expense, hsd, hnr]
    · simp only [add_expense, hsd, hnr]
      split <;> simp

/-- C4 counterexample: the calculator entry point accepts a parsed value of
zero (price "0", quantity "1") with no validation error, so a value equal to
zero is not rejected at all entry points alike. -/
theorem c4_calculator_accepts_zero :
    validate_decimal_input "0" = some 0 ∧ (calc_food_action "0" "1").1 = none := by
  refine ⟨validate_zero, ?_⟩
  simp only [calc_food_action, validate_zero, validate_one]
  rw [if_neg (by norm_num)]

/-- C4 (amended): the budget-amount and expense-amount entry points reject
exactly the parsed values that are ≤ 0, while the calculator price/quantity
entry point rejects only strictly negative parsed values, so zero is
accepted there. -/
theorem c4_sign_validation_amended :
    (∀ (s : SessionState) (now : DateTime) (bt raw : String) (a : Rat),
      pyDecimal (cleanAmount raw) = some a →
      ((set_budget_action s now bt raw).2 = some "Please enter a positive budget amount." ↔
        a ≤ 0)) ∧
    (∀ (s : SessionState) (now : DateTime) (cat raw dsc : String) (a : Rat),
      pyDecimal (cleanAmount raw) = some a →
      ((add_expense_action s now cat raw dsc).2 = some "Please enter a positive amount." ↔
        a ≤ 0)) ∧
    (∀ (pr qr : String) (p q : Rat),
      validate_decimal_input pr = some p → validate_decimal_input qr = some q →
      ((calc_food_action pr qr).1 = some "Please enter positive values only." ↔
        (p < 0 ∨ q < 0))) := by
  refine ⟨?_, ?_, ?_⟩
  · intro s now bt raw a hp
    simp only [set_budget_action, hp]
    by_cases hle : a ≤ 0
    · simp [hle]
    · simp [hle]
  · intro s now cat raw dsc a hp
    simp only [add_expense_action, hp]
    by_cases hle : a ≤ 0
    · simp [hle]
    · rcases add_expense_exc s now a dsc cat with h | h | h <;> simp [hle, h]
  · intro pr qr p q h1 h2
    simp only [calc_food_action, h1, h2]
    by_cases hneg : p < 0 ∨ q < 0
    · simp [hneg]
    · simp [hneg]

/-- C4 (amended) witness: zero is rejected at the budget and expense entry
points and a positive pair passes the calculator check. -/
theorem c4_sign_validation_amended_witness :
    ((set_budget_action initState dt0 "Daily" "0").2 =
        some "Please enter a positive budget amount." ↔ (0 : Rat) ≤ 0) ∧
    ((add_expense_action initState dt0 "Food" "0" "").2 =
        some "Please enter a positive amount." ↔ (0 : Rat) ≤ 0) ∧
    ((calc_food_action "2" "3").1 = some "Please enter positive values only." ↔
      ((2 : Rat) < 0 ∨ (3 : Rat) < 0)) :=
  ⟨c4_sign_validation_amended.1 initState dt0 "Daily" "0" 0 pyDecimal_clean_zero,
   c4_sign_validation_amended.2.1 initState dt0 "Food" "0" "" 0 pyDecimal_clean_zero,
   c4_sign_validation_amended.2.2 "2" "3" 2 3 validate_two validate_three⟩

/-- C8: for every budget amount and current total, the remaining budget is
their exact difference. -/
theorem c8_remaining_is_difference :
    ∀ (amount total : Rat) (expenses : List Expense),
      current_total expenses = total → remaining_budget amount expenses = amount - total := by
  intro a t l h
  simp [remaining_budget, h]

/-- C8 witness: an expense of 10 against a budget of 5 leaves a negative
remaining budget of 5 - 10. -/
theorem c8_remaining_is_difference_witness :
    remaining_budget 5 [e10] = 5 - 10 ∧ (5 - 10 : Rat) < 0 :=
  ⟨c8_remaining_is_difference 5 10 [e10] (by simp [current_total, e10]), by norm_num⟩

/-- C1: (bug demonstration) calling `add_expense` while no budget is active
leaves both the current-period list and the history list unchanged, but
instead of reporting failure it raises an unhandled `AttributeError`:
the `budget_period` f-string evaluates `None.strftime` before the budget
guard is reached. -/
theorem c1_add_expense_no_budget_raises :
    ∀ (s : SessionState) (now : DateTime) (amount : Rat) (dsc cat : String),
      s.budget_type = none → s.budget_amount = none → s.budget_start_date = none →
      add_expense s now amount dsc cat = (s, some "AttributeError") := by
  intro s now amount dsc cat h1 h2 h3
  simp [add_expense, h3]

/-- C1 witness: adding an expense to the freshly initialized state (no
budget) returns the state unchanged together with the raised
`AttributeError`. -/
theorem c1_add_expense_no_budget_raises_witness :
    add_expense initState dt0 5 "snack" "Food" = (initState, some "AttributeError") :=
  c1_add_expense_no_budget_raises initState dt0 5 "snack" "Food" rfl rfl rfl

/-- C2: (bug demonstration) the Monthly next-reset computation is not
defined for every day of month: with start date 2024-01-31 the underlying
`replace(year=2024, month=2)` call fails (day 31 is out of range for
February), so `get_next_reset_date` raises `ValueError` instead of
returning a clamped or rolled date. -/
theorem c2_monthly_next_reset_raises_on_day31 :
    get_next_reset_date (some "Monthly") (some ⟨2024, 1, 31, 0, 0, 0, 0⟩) = none := by
  decide

/-- C5: per budget type, the reset condition of `check_budget_reset`
coincides with the specified policy: Daily is a strict calendar-date
comparison, Weekly is an elapsed duration of at least seven days, Monthly
is a strict (year, month) comparison and Yearly a strict year comparison. -/
theorem c5_reset_due_conditions :
    ∀ now start : DateTime,
      (resetNeeded (some "Daily") now start = true ↔ dailyDueSpec now start) ∧
      (resetNeeded (some "Weekly") now start = true ↔ weeklyDueSpec now start) ∧
      (resetNeeded (some "Monthly") now start = true ↔ monthlyDueSpec now start) ∧
      (resetNeeded (some "Yearly") now start = true ↔ yearlyDueSpec now start) := by
  intro now start
  refine ⟨?_, ?_, ?_, ?_⟩
  · simp only [resetNeeded, if_true]
    simp only [pyDateLt, dateOf, dailyDueSpec]
    split_ifs <;> simp_all <;> omega
  · unfold resetNeeded
    rw [if_neg (by decide), if_pos rfl, decide_eq_true_eq]
    unfold weeklyDueSpec timedeltaDays
    generalize dtDiffMicro now start = x
    rw [Int.fdiv_eq_ediv _ (by norm_num)]
    omega
  · unfold resetNeeded
    rw [if_neg (by decide), if_neg (by decide), if_pos rfl, decide_eq_true_eq]
    exact Iff.rfl
  · unfold resetNeeded
    rw [if_neg (by decide), if_neg (by decide), if_neg (by decide), if_pos rfl,
      decide_eq_true_eq]
    exact Iff.rfl

/-- C6: no operation clears the history list: the automatic rollover moves
the start date to now and empties only the current-period list, and the
explicit reset clears the budget fields and the current-period list, with
the history list unchanged in every case. -/
theorem c6_history_never_cleared :
    ∀ (s : SessionState) (now : DateTime),
      (check_budget_reset s now).expense_history = s.expense_history ∧
      (resetBudgetAction s).expense_history = s.expense_history ∧
      (∀ start, s.budget_start_date = some start →
        resetNeeded s.budget_type now start = true →
        check_budget_reset s now =
          { s with budget_start_date := some now, expenses := [] }) ∧
      resetBudgetAction s =
        { s with
          budget_type := none
          budget_amount := none
          budget_start_date := none
          expenses := [] } := by
  intro s now
  refine ⟨?_, rfl, ?_, rfl⟩
  · rcases hsd : s.budget_start_date with _ | st
    · simp [check_budget_reset, hsd]
    · simp only [check_budget_reset, hsd]
      split <;> rfl
  · intro start hsd hr
    simp [check_budget_reset, hsd, hr]

/-- C6 witness: a due Weekly rollover nine days after the start moves the
start date, empties the current-period list and keeps the history. -/
theorem c6_history_never_cleared_witness :
    check_budget_reset weeklyState dtLater =
      { weeklyState with budget_start_date := some dtLater, expenses := [] } ∧
    (check_budget_reset weeklyState dtLater).expense_history = weeklyState.expense_history :=
  ⟨(c6_history_never_cleared weeklyState dtLater).2.2.1 dt0 rfl (by decide),
   (c6_history_never_cleared weeklyState dtLater).1⟩

/-- C7: on a non-empty filtered set the summary equals the pair of the sum
of amounts and that sum divided by max(1, whole days between now and the
earliest timestamp of the set); on an empty filtered set no statistics are
produced (the page reports no data) and no division is performed. -/
theorem c7_history_stats_spec :
    ∀ (history : List Expense) (cat range : String) (now : DateTime),
      (filtered_expenses history cat range now = [] →
        history_stats (filtered_expenses history cat range now) now = none) ∧
      (∀ e rest, filtered_expenses history cat range now = e :: rest →
        history_stats (filtered_expenses history cat range now) now =
          some (totalSpentSpec (e :: rest),
            totalSpentSpec (e :: rest) /
              ((max 1 (daysBetween now (minExpenseDate e rest)) : Int) : Rat))) := by
  intro history cat range now
  constructor
  · intro h
    rw [h]
    rfl
  · intro e rest h
    rw [h]
    simp only [history_stats, current_total, totalSpentSpec, daysBetween]

/-- C7 witness: a concrete two-element history with the pass-through
filters produces the specified total and average. -/
theorem c7_history_stats_spec_witness :
    history_stats (filtered_expenses [e10, e35] "All" "All time" dtLater) dtLater =
      some (totalSpentSpec (e10 :: [e35]),
        totalSpentSpec (e10 :: [e35]) /
          ((max 1 (daysBetween dtLater (minExpenseDate e10 [e35])) : Int) : Rat)) :=
  (c7_history_stats_spec [e10, e35] "All" "All time" dtLater).2 e10 [e35] rfl

end BudgetTracker
